import Mathlib

/-!
Verification development for the patientsim dialogue generation program.

The embedding covers the LLM client wrapper (llm_client.py), the doctor and
patient agents (doctor_agent.py, patient_agent.py) and the dialogue
orchestrator (generate_dialogues.py). Remote providers are modelled as
oracle functions; an Except error value stands for a raised Python
exception, an Option String for a reply that may be None.
-/

/-- Chat message with a role and a content, as the dicts passed to the LLM API
and kept in each agent's conversation_history; also used for transcript
entries whose role is Doctor or Patient. -/
structure Message where
  role : String
  content : String
  deriving DecidableEq, Repr

/-- Generation defaults of one registered model, from its config.yaml entry. -/
structure ModelConfig where
  modelName : String
  temperature : Rat
  maxTokens : Nat
  deriving DecidableEq, Repr

/-- Provider kind recorded for each client built by
LLMClient._initialize_clients. -/
inductive ClientType where
  | openai
  | openaiCompatible
  | ollama
  deriving DecidableEq, Repr

/-- One value of the clients mapping built by LLMClient._initialize_clients. -/
structure ClientInfo where
  ctype : ClientType
  config : ModelConfig
  deriving DecidableEq, Repr

/-- Request data handed to the provider transport by LLMClient.generate: the
model name from config plus the messages and the resolved sampling
parameters. -/
structure Request where
  modelName : String
  messages : List Message
  temperature : Rat
  maxTokens : Nat
  deriving DecidableEq, Repr

/-- Ollama response message object: the content key may be absent, or hold
null, or hold a string. -/
structure OllamaMessage where
  content : Option (Option String)
  deriving DecidableEq, Repr

/-- Parsed JSON payload of a 2xx Ollama response: the message key may be
absent. -/
structure OllamaPayload where
  message : Option OllamaMessage
  deriving DecidableEq, Repr

/-- Lookup of model_id in the clients dict of LLMClient. -/
def lookupClient (clients : List (String × ClientInfo)) (modelId : String) :
    Option ClientInfo :=
  (clients.find? (fun c => c.1 == modelId)).map (fun c => c.2)

/-- Resolution of the sampling parameters in LLMClient.generate (lines 86 and
87 of llm_client.py): an override is used exactly when it is not None,
otherwise the config default is used. -/
def LLMClient.genRequest (config : ModelConfig) (messages : List Message)
    (temperature : Option Rat) (maxTokens : Option Nat) : Request :=
  { modelName := config.modelName
    messages := messages
    temperature := temperature.getD config.temperature
    maxTokens := maxTokens.getD config.maxTokens }

/-- Extraction of the reply text from an Ollama payload in LLMClient.generate:
result.get with key message and default empty dict, then .get with key
content and default empty string. A missing key yields the empty string; an
explicit null content yields None. -/
def LLMClient.ollamaExtract (payload : OllamaPayload) : Option String :=
  match payload.message with
  | none => some ""
  | some msg =>
    match msg.content with
    | none => some ""
    | some v => v

/-- Shallow embedding of LLMClient.generate. The provider transports are
oracle functions indexed by attempt number; the openai and openai compatible
branches return the choice message content (possibly None), the ollama branch
returns the parsed payload of a 2xx response. An Except error value stands
for any exception raised inside the try block (network error, raise of
raise_for_status on a non 2xx status, malformed payload). -/
def LLMClient.generate (clients : List (String × ClientInfo)) (modelId : String)
    (messages : List Message) (temperature : Option Rat) (maxTokens : Option Nat)
    (openaiCall : Nat → Request → Except String (Option String))
    (ollamaCall : Nat → Request → Except String OllamaPayload) :
    Except String (Option String) :=
  match lookupClient clients modelId with
  | none => Except.error ("Model " ++ modelId ++ " not initialized. Check API keys.")
  | some ci =>
    let req := LLMClient.genRequest ci.config messages temperature maxTokens
    match ci.ctype with
    | ClientType.openai | ClientType.openaiCompatible =>
      match openaiCall 0 req with
      | Except.error cause =>
        Except.error ("Error generating from " ++ modelId ++ ": " ++ cause)
      | Except.ok content => Except.ok content
    | ClientType.ollama =>
      match ollamaCall 0 req with
      | Except.error cause =>
        Except.error ("Error generating from " ++ modelId ++ ": " ++ cause)
      | Except.ok payload => Except.ok (LLMClient.ollamaExtract payload)

/-- Shallow embedding of LLMClient.test_connection: one generate round trip
with a fixed prompt and max_tokens 50; a raised exception yields false,
otherwise the returned value is the test response is not None. -/
def LLMClient.test_connection (clients : List (String × ClientInfo))
    (modelId : String)
    (openaiCall : Nat → Request → Except String (Option String))
    (ollamaCall : Nat → Request → Except String OllamaPayload) : Bool :=
  match LLMClient.generate clients modelId [{ role := "user", content := "Say hi" }]
      none (some 50) openaiCall ollamaCall with
  | Except.error _ => false
  | Except.ok response => response.isSome

/-- Shallow embedding of DoctorAgent.should_end_interview: return
turn_number greater or equal max_turns. -/
def DoctorAgent.should_end_interview (turn_number max_turns : Nat) : Bool :=
  decide (turn_number ≥ max_turns)

/-- Concrete openai style client used in concrete instantiations. -/
def demoClient : ClientInfo :=
  { ctype := ClientType.openai
    config := { modelName := "gpt-4.1", temperature := 1, maxTokens := 100 } }

/-- Transport oracle that succeeds with a None content, as an openai chat
completion whose message content field is null. -/
def noneContentCall : Nat → Request → Except String (Option String) :=
  fun _ _ => Except.ok none

/-- Transport oracle that raises with a fixed cause on every attempt. -/
def failingOpenaiCall : Nat → Request → Except String (Option String) :=
  fun _ _ => Except.error "boom"

/-- Ollama oracle that is never consulted in the concrete instantiations. -/
def unusedOllamaCall : Nat → Request → Except String OllamaPayload :=
  fun _ _ => Except.error "unused"

/-- Profile values as stored in a patient_profile.json entry: a string, an
integer, or an explicit null. The vocabulary builder only uses string
values; f string interpolation renders null as the text None, as Python str
does. -/
inductive PVal where
  | str (s : String)
  | intv (n : Int)
  | nullv
  deriving DecidableEq, Repr

/-- Patient profile: a finite mapping with string keys, as the profile
dict. -/
abbrev Profile := List (String × PVal)

/-- Dict get with no default: None when the key is absent. -/
def pget (p : Profile) (key : String) : Option PVal :=
  (p.find? (fun kv => kv.1 == key)).map (fun kv => kv.2)

/-- Dict get with a default: the default applies only when the key is
absent, a stored null is returned as is. -/
def pgetD (p : Profile) (key : String) (dflt : PVal) : PVal :=
  (pget p key).getD dflt

/-- Rendering of a profile value inside an f string, as Python str. -/
def PVal.render : PVal → String
  | PVal.str s => s
  | PVal.intv n => toString n
  | PVal.nullv => "None"

/-- Rendering of profile.get applied to key inside an f string: an absent
key prints None. -/
def pshow (p : Profile) (key : String) : String :=
  match pget p key with
  | none => "None"
  | some v => v.render

/-- Rendering of profile.get with key and default inside an f string. -/
def pshowD (p : Profile) (key : String) (dflt : String) : String :=
  match pget p key with
  | none => dflt
  | some v => v.render

/-- Persona attribute extracted at PatientAgent construction, with the
dict.get default of patient_agent.py line 28. -/
def PatientAgent.cefr_level (p : Profile) : PVal :=
  pgetD p "cefr" (PVal.str "B")

/-- Persona attribute of patient_agent.py line 29. -/
def PatientAgent.personality (p : Profile) : PVal :=
  pgetD p "personality" (PVal.str "plain")

/-- Persona attribute of patient_agent.py line 30. -/
def PatientAgent.recall_level (p : Profile) : PVal :=
  pgetD p "recall_level" (PVal.str "medium")

/-- Persona attribute of patient_agent.py line 31. -/
def PatientAgent.dazed_level (p : Profile) : PVal :=
  pgetD p "dazed_level" (PVal.str "normal")

/-- CEFR tier A instruction block. -/
def cefrBlockA : String :=
  "Use very simple English. Use short sentences (5-10 words). Use only basic vocabulary. Avoid complex grammar. Speak like a beginner English learner."

/-- CEFR tier B instruction block. -/
def cefrBlockB : String :=
  "Use everyday English. Use moderate sentence length (10-15 words). Use common vocabulary. Avoid very complex words. Speak like an intermediate English speaker."

/-- CEFR tier C instruction block. -/
def cefrBlockC : String :=
  "Use fluent English. Use varied sentence structures. Use sophisticated vocabulary when appropriate. Speak like an advanced English speaker."

/-- CEFR instruction dict lookup with the .get default of the tier B block
for an unrecognized level. -/
def cefrInstruction (level : PVal) : String :=
  if level = PVal.str "A" then cefrBlockA
  else if level = PVal.str "B" then cefrBlockB
  else if level = PVal.str "C" then cefrBlockC
  else cefrBlockB

/-- Personality block for the plain value. -/
def personalityBlockPlain : String :=
  "Be cooperative and straightforward. Answer questions directly and honestly. Trust the doctor."

/-- Personality block for the distrust value. -/
def personalityBlockDistrust : String :=
  "Be somewhat guarded and suspicious. Question the doctor\x27s recommendations. Show reluctance to share information immediately. Express doubts about treatments."

/-- Personality instruction dict lookup with the .get default of the plain
block for an unrecognized value. -/
def personalityInstruction (v : PVal) : String :=
  if v = PVal.str "plain" then personalityBlockPlain
  else if v = PVal.str "distrust" then personalityBlockDistrust
  else personalityBlockPlain

/-- Recall block for the low value. -/
def recallBlockLow : String :=
  "You have difficulty remembering details. Often say \x27I don\x27t remember\x27 or \x27I\x27m not sure\x27 when asked about specifics. Provide vague timeframes."

/-- Recall block for the medium value. -/
def recallBlockMedium : String :=
  "You remember most important details but may forget minor specifics. Occasionally need prompting to recall information."

/-- Recall block for the high value. -/
def recallBlockHigh : String :=
  "You remember details clearly. Provide specific dates, times, and descriptions when asked."

/-- Recall instruction dict lookup with the .get default of the medium block
for an unrecognized value. -/
def recallInstruction (v : PVal) : String :=
  if v = PVal.str "low" then recallBlockLow
  else if v = PVal.str "medium" then recallBlockMedium
  else if v = PVal.str "high" then recallBlockHigh
  else recallBlockMedium

/-- Dazed block for the normal value. -/
def dazedBlockNormal : String :=
  "You are clear-headed and can follow the conversation well."

/-- Dazed block for the confused value. -/
def dazedBlockConfused : String :=
  "You are somewhat confused or disoriented. Occasionally lose track of the conversation. Ask the doctor to repeat questions. Mix up some details."

/-- Dazed instruction dict lookup with the .get default of the normal block
for an unrecognized value. -/
def dazedInstruction (v : PVal) : String :=
  if v = PVal.str "normal" then dazedBlockNormal
  else if v = PVal.str "confused" then dazedBlockConfused
  else dazedBlockNormal

/-- Vocabulary key lists per CEFR level, with the .get default of the single
med_A key for an unrecognized level (patient_agent.py lines 66 to 73). -/
def vocab_keys (level : PVal) : List String :=
  if level = PVal.str "A" then ["med_A", "cefr_A1", "cefr_A2"]
  else if level = PVal.str "B" then
    ["med_A", "med_B", "cefr_A1", "cefr_A2", "cefr_B1", "cefr_B2"]
  else if level = PVal.str "C" then
    ["med_A", "med_B", "med_C", "cefr_A1", "cefr_A2", "cefr_B1", "cefr_B2",
      "cefr_C1", "cefr_C2"]
  else ["med_A"]

/-- Assembly of the vocabulary list: for each key of the level key list that
is present in the profile with a string value, the comma separated items are
appended (patient_agent.py lines 72 to 77). -/
def buildVocabulary (p : Profile) (keys : List String) : List String :=
  keys.flatMap (fun key =>
    match pget p key with
    | some (PVal.str s) => s.splitOn ", "
    | _ => [])

/-- Model of random.sample applied to the vocabulary: the random source
draws a list of positions and the sample is the items at those positions.
The call in patient_agent.py line 79 draws min 30 (length vocabulary) many
distinct positions. -/
def sampleByIndices (vocabulary : List String) (sel : List Nat) : List String :=
  sel.filterMap (fun i => vocabulary[i]?)

/-- Profile and demographics part of the patient system prompt, up to and
including the Language Level heading, with the f string interpolations of
patient_agent.py lines 82 to 126. -/
def patientPromptHead (p : Profile) : String :=
  "You are simulating a patient visiting the emergency department. You must stay in character throughout the conversation.\n\n## PATIENT PROFILE\n\n**Demographics:**\n- Age: " ++
  pshow p "age" ++ " years old\n- Gender: " ++ pshow p "gender" ++
  "\n- Race: " ++ pshow p "race" ++
  "\n- Marital Status: " ++ pshow p "marital_status" ++
  "\n- Occupation: " ++ pshow p "occupation" ++
  "\n- Living Situation: " ++ pshow p "living_situation" ++
  "\n- Children: " ++ pshowD p "children" "Not recorded" ++
  "\n\n**Chief Complaint:** " ++ pshow p "chiefcomplaint" ++
  "\n**Pain Level:** " ++ pshow p "pain" ++
  "/10\n**Diagnosis (DO NOT REVEAL):** " ++ pshow p "diagnosis" ++
  "\n\n**Present Illness - Symptoms You Experience:**\n" ++
  pshowD p "present_illness_positive" "Not recorded" ++
  "\n\n**Symptoms You DO NOT Have:**\n" ++
  pshowD p "present_illness_negative" "Not recorded" ++
  "\n\n**Medical History:**\n" ++ pshowD p "medical_history" "None reported" ++
  "\n\n**Current Medications:**\n" ++ pshowD p "medication" "None" ++
  "\n\n**Allergies:**\n" ++ pshowD p "allergies" "No known allergies" ++
  "\n\n**Social History:**\n- Tobacco: " ++ pshowD p "tobacco" "Not recorded" ++
  "\n- Alcohol: " ++ pshowD p "alcohol" "Not recorded" ++
  "\n- Drugs: " ++ pshowD p "illicit_drug" "Not recorded" ++
  "\n- Exercise: " ++ pshowD p "exercise" "Not recorded" ++
  "\n\n**Family History:**\n" ++
  pshowD p "family_medical_history" "Noncontributory" ++
  "\n\n## PERSONA ATTRIBUTES\n\n**Language Level (CEFR " ++
  (PatientAgent.cefr_level p).render ++ "):**\n"

/-- Patient prompt text between the language block and the personality
block: the vocabulary line over the first 20 sampled items and the heading
of the personality section. -/
def patientPromptMid1 (p : Profile) (sel : List Nat) : String :=
  "\n\n**Vocabulary to use:** " ++
  String.intercalate ", "
    ((sampleByIndices
        (buildVocabulary p (vocab_keys (PatientAgent.cefr_level p))) sel).take 20) ++
  "\nAvoid using complex medical terms unless you\x27re CEFR level C.\n\n**Personality (" ++
  (PatientAgent.personality p).render ++ "):**\n"

/-- Patient prompt text between the personality block and the recall
block. -/
def patientPromptMid2 (p : Profile) : String :=
  "\n\n**Memory/Recall (" ++ (PatientAgent.recall_level p).render ++ "):**\n"

/-- Patient prompt text between the recall block and the dazed block. -/
def patientPromptMid3 (p : Profile) : String :=
  "\n\n**Mental Clarity (" ++ (PatientAgent.dazed_level p).render ++ "):**\n"

/-- Closing rules part of the patient system prompt, after the dazed
block. -/
def patientPromptTail : String :=
  "\n\n## IMPORTANT RULES\n\n1. **Stay in character:** Always respond as this specific patient would, based on their persona\n2. **Be realistic:** Respond naturally like a real patient would in an ED\n3. **Don\x27t volunteer everything:** Let the doctor ask questions\n4. **Show emotions:** Express pain, worry, frustration as appropriate\n5. **Only reveal what you know:** Don\x27t mention the diagnosis or information not in your profile\n6. **Use appropriate language:** Match your CEFR level consistently\n7. **Be consistent:** Don\x27t contradict information you\x27ve already shared\n8. **Natural responses:** Use filler words, pauses, and natural speech patterns\n\n## RESPONSE FORMAT\n\nRespond ONLY with what the patient would say. Do not include:\n- Stage directions like \"(coughs)\" or \"[looks worried]\"\n- Explanations of why you\x27re responding this way\n- Meta-commentary\n\nJust speak naturally as the patient.\n"

/-- Shallow embedding of PatientAgent._build_system_prompt. The random
vocabulary sample is determined by the index list sel drawn by the random
source. -/
def PatientAgent.build_system_prompt (p : Profile) (sel : List Nat) : String :=
  patientPromptHead p ++
    (cefrInstruction (PatientAgent.cefr_level p) ++
      (patientPromptMid1 p sel ++
        (personalityInstruction (PatientAgent.personality p) ++
          (patientPromptMid2 p ++
            (recallInstruction (PatientAgent.recall_level p) ++
              (patientPromptMid3 p ++
                (dazedInstruction (PatientAgent.dazed_level p) ++
                  patientPromptTail)))))))

/-- Private state of a PatientAgent: the profile, the cached system prompt
and the exclusively owned conversation history. -/
structure PatientState where
  profile : Profile
  systemPrompt : String
  history : List Message
  deriving Repr

/-- PatientAgent construction: renders and caches the system prompt once,
with an empty conversation history. -/
def PatientAgent.init (profile : Profile) (sel : List Nat) : PatientState :=
  { profile := profile
    systemPrompt := PatientAgent.build_system_prompt profile sel
    history := [] }

/-- Messages sent to the LLM by PatientAgent.respond: the cached system
prompt followed by the history including the newly appended doctor
message. -/
def PatientAgent.respondMessages (st : PatientState) (doctor_message : String) :
    List Message :=
  { role := "system", content := st.systemPrompt } ::
    (st.history ++ [{ role := "user", content := "Doctor: " ++ doctor_message }])

/-- Shallow embedding of PatientAgent.respond: the doctor message is
appended to the history, then the generation call runs; on success the
reply is appended as well and returned, while a raised generation error
propagates and leaves the already appended doctor message in place. The gw
oracle stands for self.client.generate partially applied to the agent model
id. -/
def PatientAgent.respond (st : PatientState) (doctor_message : String)
    (gw : List Message → Except String String) :
    PatientState × Except String String :=
  let hist := st.history ++
    [{ role := "user", content := "Doctor: " ++ doctor_message }]
  match gw (PatientAgent.respondMessages st doctor_message) with
  | Except.error e => ({ st with history := hist }, Except.error e)
  | Except.ok r =>
    ({ st with history := hist ++ [{ role := "assistant", content := r }] },
      Except.ok r)

/-- Shallow embedding of DoctorAgent._build_system_prompt (doctor_agent.py
lines 29 to 97). -/
def DoctorAgent.build_system_prompt (chief_complaint : String) : String :=
  "You are an experienced emergency department physician conducting a patient interview. Your goal is to gather comprehensive medical information to make an accurate diagnosis.\n\n## CHIEF COMPLAINT\nThe patient presents with: " ++
  chief_complaint ++
  "\n\n## YOUR RESPONSIBILITIES\n\n1. **Conduct a thorough history:**\n   - History of Present Illness (HPI): Onset, location, duration, characteristics, aggravating/relieving factors, radiation, timing, severity\n   - Review of Systems (ROS): Systematic review of relevant systems\n   - Past Medical History (PMH): Previous conditions, surgeries, hospitalizations\n   - Medications: Current medications, dosages, compliance\n   - Allergies: Drug allergies and reactions\n   - Social History: Tobacco, alcohol, drugs, occupation, living situation\n   - Family History: Relevant family medical history\n\n2. **Ask focused, clear questions:**\n   - One question at a time\n   - Use open-ended questions initially, then follow up with specific questions\n   - Adapt your language to the patient\x27s comprehension level\n   - Be empathetic and professional\n\n3. **Build rapport:**\n   - Show empathy and concern\n   - Acknowledge the patient\x27s discomfort\n   - Explain your reasoning when appropriate\n\n4. **Work toward diagnosis:**\n   - Gather enough information to form a differential diagnosis\n   - Ask follow-up questions based on patient responses\n   - Consider red flags and serious conditions\n\n## INTERVIEW STRUCTURE\n\nStart with:\n1. Introduction and opening question about the chief complaint\n2. Detailed history of present illness\n3. Associated symptoms (review of systems)\n4. Past medical history and medications\n5. Social and family history\n6. Summarize findings and explain next steps\n\n## CONVERSATION STYLE\n\n- Be professional yet warm\n- Use clear, simple language\n- Ask one question at a time\n- Listen carefully to responses\n- Follow up on important details\n- Adapt to the patient\x27s communication style\n\n## IMPORTANT RULES\n\n1. Stay in character as a physician\n2. Do not make diagnoses out loud (think through differential internally)\n3. Focus on gathering information through questions\n4. Be realistic - you cannot perform physical exams in this text conversation\n5. If the patient seems confused or has language difficulties, adjust your approach\n6. Respond naturally - no stage directions or meta-commentary\n\n## RESPONSE FORMAT\n\nRespond ONLY with what the doctor would say. Keep responses concise and focused.\n"

/-- Private state of a DoctorAgent: the chief complaint, the cached system
prompt and the exclusively owned conversation history. -/
structure DoctorState where
  chiefComplaint : String
  systemPrompt : String
  history : List Message
  deriving Repr

/-- DoctorAgent construction: renders and caches the system prompt once,
with an empty conversation history. -/
def DoctorAgent.init (chief_complaint : String) : DoctorState :=
  { chiefComplaint := chief_complaint
    systemPrompt := DoctorAgent.build_system_prompt chief_complaint
    history := [] }

/-- Messages sent by DoctorAgent.start_interview. -/
def DoctorAgent.startMessages (st : DoctorState) : List Message :=
  [{ role := "system", content := st.systemPrompt },
    { role := "user",
      content := "Begin the interview. The patient has come to the ED with: " ++
        st.chiefComplaint }]

/-- Shallow embedding of DoctorAgent.start_interview: on success the opening
message is appended to the history as the agent turn and returned. -/
def DoctorAgent.start_interview (st : DoctorState)
    (gw : List Message → Except String String) :
    DoctorState × Except String String :=
  match gw (DoctorAgent.startMessages st) with
  | Except.error e => (st, Except.error e)
  | Except.ok r =>
    ({ st with history := st.history ++ [{ role := "assistant", content := r }] },
      Except.ok r)

/-- Transient closing context addendum of DoctorAgent.respond (line 144 of
doctor_agent.py). -/
def closingContext (turn_number max_turns : Nat) : String :=
  "\n\n[You are near the end of the interview (turn " ++ toString turn_number ++
    "/" ++ toString max_turns ++ "). Start summarizing and explaining next steps.]"

/-- Context string of DoctorAgent.respond: the closing addendum exactly when
turn_number is at least max_turns minus 2 (truncated natural subtraction,
which agrees with the Python integer comparison for non negative arguments),
otherwise the empty string. -/
def DoctorAgent.contextFor (turn_number max_turns : Nat) : String :=
  if max_turns - 2 ≤ turn_number then closingContext turn_number max_turns else ""

/-- Messages sent to the LLM by DoctorAgent.respond: the cached system
prompt with the transient context appended, followed by the history
including the newly appended patient message. -/
def DoctorAgent.respondMessages (st : DoctorState) (patient_message : String)
    (turn_number max_turns : Nat) : List Message :=
  { role := "system",
    content := st.systemPrompt ++ DoctorAgent.contextFor turn_number max_turns } ::
    (st.history ++ [{ role := "user", content := "Patient: " ++ patient_message }])

/-- Shallow embedding of DoctorAgent.respond: the patient message is
appended to the history, then the generation call runs over the system
prompt with the transient context; on success the reply is appended and
returned, while a raised generation error propagates and leaves the already
appended patient message in place. -/
def DoctorAgent.respond (st : DoctorState) (patient_message : String)
    (turn_number max_turns : Nat) (gw : List Message → Except String String) :
    DoctorState × Except String String :=
  let hist := st.history ++
    [{ role := "user", content := "Patient: " ++ patient_message }]
  match gw (DoctorAgent.respondMessages st patient_message turn_number max_turns) with
  | Except.error e => ({ st with history := hist }, Except.error e)
  | Except.ok r =>
    ({ st with history := hist ++ [{ role := "assistant", content := r }] },
      Except.ok r)

/-- Conversation loop of DialogueGenerator.generate_single_dialogue
(generate_dialogues.py lines 78 to 95): turns_left counts the loop
iterations still available out of max_turns, turn is the zero based loop
index, and hist is the transcript built so far. A raised generation error
aborts the dialogue and propagates. -/
def convLoop (gwDoc gwPat : List Message → Except String String)
    (max_turns : Nat) :
    Nat → Nat → DoctorState → PatientState → String → List Message →
    Except String (List Message)
  | 0, _, _, _, _, hist => Except.ok hist
  | turns_left + 1, turn, doc, pat, doctor_message, hist =>
    match PatientAgent.respond pat doctor_message gwPat with
    | (_, Except.error e) => Except.error e
    | (pat2, Except.ok patient_message) =>
      let hist2 := hist ++ [{ role := "Patient", content := patient_message }]
      if DoctorAgent.should_end_interview (turn + 1) max_turns then Except.ok hist2
      else
        match DoctorAgent.respond doc patient_message (turn + 1) max_turns gwDoc with
        | (_, Except.error e) => Except.error e
        | (doc2, Except.ok doctor_message2) =>
          convLoop gwDoc gwPat max_turns turns_left (turn + 1) doc2 pat2
            doctor_message2
            (hist2 ++ [{ role := "Doctor", content := doctor_message2 }])

/-- Shallow embedding of DialogueGenerator.generate_single_dialogue,
returning the dialog history on success. The index list sel parameterizes
the random vocabulary sample drawn during patient construction. -/
def generate_single_dialogue (profile : Profile) (sel : List Nat)
    (gwDoc gwPat : List Message → Except String String) (max_turns : Nat) :
    Except String (List Message) :=
  let pat := PatientAgent.init profile sel
  let doc := DoctorAgent.init (pshowD profile "chiefcomplaint" "Not specified")
  match DoctorAgent.start_interview doc gwDoc with
  | (_, Except.error e) => Except.error e
  | (doc2, Except.ok doctor_message) =>
    convLoop gwDoc gwPat max_turns max_turns 0 doc2 pat doctor_message
      [{ role := "Doctor", content := doctor_message }]

/-- Deterministic stub gateway succeeding with a fixed reply. -/
def stubGW : List Message → Except String String := fun _ => Except.ok "ok"

/-- Gateway failing with a fixed error on every call. -/
def failGW : List Message → Except String String := fun _ => Except.error "down"

/-- Reduction of PatientAgent.respond on a successful generation call. -/
theorem PatientAgent.respond_reduces_ok (st : PatientState) (dm : String)
    (gw : List Message → Except String String) (r : String)
    (h : gw (PatientAgent.respondMessages st dm) = Except.ok r) :
    PatientAgent.respond st dm gw =
      ({ st with history := st.history ++
          [{ role := "user", content := "Doctor: " ++ dm },
            { role := "assistant", content := r }] }, Except.ok r) := by
  unfold PatientAgent.respond
  rw [h]
  simp

/-- Reduction of DoctorAgent.respond on a successful generation call. -/
theorem DoctorAgent.respond_appends_ok (st : DoctorState) (pm : String)
    (turn_number max_turns : Nat) (gw : List Message → Except String String)
    (r : String)
    (h : gw (DoctorAgent.respondMessages st pm turn_number max_turns) = Except.ok r) :
    DoctorAgent.respond st pm turn_number max_turns gw =
      ({ st with history := st.history ++
          [{ role := "user", content := "Patient: " ++ pm },
            { role := "assistant", content := r }] }, Except.ok r) := by
  unfold DoctorAgent.respond
  rw [h]
  simp

/-- C5: with max turns 3, a chest pain chief complaint and deterministic
stub backends whose every generation call succeeds,
generate_single_dialogue produces a transcript of exactly six entries whose
speaker roles are Doctor, Patient, Doctor, Patient, Doctor, Patient, ending
on a Patient turn. -/
theorem C5_three_turns_transcript :
    (generate_single_dialogue [("chiefcomplaint", PVal.str "chest pain")] []
        stubGW stubGW 3).map (List.map Message.role) =
      Except.ok ["Doctor", "Patient", "Doctor", "Patient", "Doctor", "Patient"] :=
  rfl

/-- C2 counterexample: at max turns 3 with always succeeding stubs the run
exits through the Patient triggered break after the Patient third turn, and
the transcript has 6 entries; the claim predicts either N + 1 = 4 entries
for a run without the Patient triggered exit or an odd count 2k + 1 for a
run with it, and 6 is neither. -/
theorem C2_counterexample :
    (generate_single_dialogue [] [] stubGW stubGW 3).map List.length =
      Except.ok 6 ∧
    (6 : Nat) ≠ 3 + 1 ∧ (6 : Nat) % 2 = 0 ∧ (6 : Nat) ≠ 2 * 3 + 1 :=
  ⟨rfl, by decide, by decide, by decide⟩

/-- Loop invariant of convLoop: with at least one iteration available,
always succeeding gateways, and the loop index tied to the remaining
iterations by turn + turns_left = max_turns, the loop always exits through
the Patient triggered break, appends exactly 2 * turns_left - 1 transcript
entries, and ends on a Patient entry. -/
theorem convLoop_length (gwDoc gwPat : List Message → Except String String)
    (max_turns : Nat)
    (hD : ∀ msgs, (gwDoc msgs).isOk = true)
    (hP : ∀ msgs, (gwPat msgs).isOk = true) :
    ∀ (turns_left turn : Nat) (doc : DoctorState) (pat : PatientState)
      (doctor_message : String) (hist : List Message),
      0 < turns_left → turn + turns_left = max_turns →
      ∃ res,
        convLoop gwDoc gwPat max_turns turns_left turn doc pat doctor_message
            hist = Except.ok res ∧
        res.length = hist.length + (2 * turns_left - 1) ∧
        (res.map Message.role).getLast? = some "Patient" := by
  intro turns_left
  induction turns_left with
  | zero => intro turn doc pat dm hist h0 _; exact absurd h0 (by omega)
  | succ tl ih =>
    intro turn doc pat dm hist _ hsum
    have hpat := hP (PatientAgent.respondMessages pat dm)
    cases hgp : gwPat (PatientAgent.respondMessages pat dm) with
    | error e => rw [hgp] at hpat; exact Bool.noConfusion hpat
    | ok pmsg =>
      rw [show convLoop gwDoc gwPat max_turns (tl + 1) turn doc pat dm hist =
          (match PatientAgent.respond pat dm gwPat with
          | (_, Except.error e) => Except.error e
          | (pat2, Except.ok patient_message) =>
            let hist2 := hist ++ [{ role := "Patient", content := patient_message }]
            if DoctorAgent.should_end_interview (turn + 1) max_turns then
              Except.ok hist2
            else
              match DoctorAgent.respond doc patient_message (turn + 1) max_turns
                  gwDoc with
              | (_, Except.error e) => Except.error e
              | (doc2, Except.ok doctor_message2) =>
                convLoop gwDoc gwPat max_turns tl (turn + 1) doc2 pat2
                  doctor_message2
                  (hist2 ++ [{ role := "Doctor", content := doctor_message2 }]))
          from rfl]
      rw [PatientAgent.respond_reduces_ok pat dm gwPat pmsg hgp]
      cases tl with
      | zero =>
        have hend : DoctorAgent.should_end_interview (turn + 1) max_turns = true := by
          simp [DoctorAgent.should_end_interview]; omega
        simp only [hend, if_true]
        refine ⟨hist ++ [{ role := "Patient", content := pmsg }], rfl, by simp, ?_⟩
        simp
      | succ k =>
        have hend : DoctorAgent.should_end_interview (turn + 1) max_turns = false := by
          simp [DoctorAgent.should_end_interview]; omega
        simp only [hend, if_false]
        have hdoc := hD (DoctorAgent.respondMessages doc pmsg (turn + 1) max_turns)
        cases hgd : gwDoc (DoctorAgent.respondMessages doc pmsg (turn + 1) max_turns) with
        | error e => rw [hgd] at hdoc; exact Bool.noConfusion hdoc
        | ok dmsg =>
          rw [DoctorAgent.respond_appends_ok doc pmsg (turn + 1) max_turns gwDoc dmsg hgd]
          obtain ⟨res, heq, hlen, hlast⟩ :=
            ih (turn + 1) _ _ dmsg
              ((hist ++ [{ role := "Patient", content := pmsg }]) ++
                [{ role := "Doctor", content := dmsg }])
              (by omega) (by omega)
          refine ⟨res, heq, ?_, hlast⟩
          simp at hlen
          simp [hlen]
          omega

/-- C2 amended: for max turns N at least 1, with gateways whose every
generation call succeeds, the loop always exits through the Patient
triggered break after the Patient Nth turn: the transcript contains exactly
2N Doctor or Patient entries (not N + 1, and the count is even, not of the
form 2k + 1) and ends on a Patient turn. -/
theorem C2_transcript_length (profile : Profile) (sel : List Nat)
    (gwDoc gwPat : List Message → Except String String) (N : Nat)
    (hN : 1 ≤ N)
    (hD : ∀ msgs, (gwDoc msgs).isOk = true)
    (hP : ∀ msgs, (gwPat msgs).isOk = true) :
    ∃ res, generate_single_dialogue profile sel gwDoc gwPat N = Except.ok res ∧
      res.length = 2 * N ∧ (res.map Message.role).getLast? = some "Patient" := by
  unfold generate_single_dialogue
  have hop := hD (DoctorAgent.startMessages
    (DoctorAgent.init (pshowD profile "chiefcomplaint" "Not specified")))
  cases hgs : gwDoc (DoctorAgent.startMessages
      (DoctorAgent.init (pshowD profile "chiefcomplaint" "Not specified"))) with
  | error e => rw [hgs] at hop; exact Bool.noConfusion hop
  | ok r =>
    unfold DoctorAgent.start_interview
    dsimp only
    rw [hgs]
    obtain ⟨res, heq, hlen, hlast⟩ :=
      convLoop_length gwDoc gwPat N hD hP N 0 _ _ r
        [{ role := "Doctor", content := r }] (by omega) (by omega)
    exact ⟨res, heq, by simp at hlen; omega, hlast⟩

/-- Witness for the amended C2 at max turns 1 with concrete stubs. -/
theorem C2_transcript_length_witness :
    1 ≤ 1 ∧ (∀ msgs, (stubGW msgs).isOk = true) ∧
    (∃ res, generate_single_dialogue [] [] stubGW stubGW 1 = Except.ok res ∧
      res.length = 2 * 1 ∧ (res.map Message.role).getLast? = some "Patient") :=
  ⟨Nat.le.refl, fun _ => rfl,
    C2_transcript_length [] [] stubGW stubGW 1 Nat.le.refl
      (fun _ => rfl) (fun _ => rfl)⟩

/-- C1 counterexample: a failed generation call inside respond does not
leave the conversation history byte identical to its pre call value: the
incoming message has already been appended when the call raises, for the
patient agent and for the doctor agent alike. -/
theorem C1_counterexample :
    (PatientAgent.respond (PatientAgent.init [] []) "hi" failGW).1.history ≠
      (PatientAgent.init [] []).history ∧
    (DoctorAgent.respond (DoctorAgent.init "cc") "hi" 1 3 failGW).1.history ≠
      (DoctorAgent.init "cc").history := by
  constructor <;> decide

/-- C1 amended: when the generation call inside respond fails, the reply
turn is not appended, but the incoming message already is: the post failure
state equals the pre call state with exactly the role tagged incoming
message appended to the history, and the error propagates unchanged; this
holds for the patient agent and the doctor agent. -/
theorem C1_failure_appends_incoming_only
    (pst : PatientState) (dst : DoctorState) (dm pm : String)
    (turn_number max_turns : Nat)
    (gwP gwD : List Message → Except String String) (eP eD : String)
    (hP : gwP (PatientAgent.respondMessages pst dm) = Except.error eP)
    (hD : gwD (DoctorAgent.respondMessages dst pm turn_number max_turns) =
      Except.error eD) :
    PatientAgent.respond pst dm gwP =
      ({ pst with history := pst.history ++
          [{ role := "user", content := "Doctor: " ++ dm }] }, Except.error eP) ∧
    DoctorAgent.respond dst pm turn_number max_turns gwD =
      ({ dst with history := dst.history ++
          [{ role := "user", content := "Patient: " ++ pm }] }, Except.error eD) := by
  constructor
  · unfold PatientAgent.respond
    rw [hP]
  · unfold DoctorAgent.respond
    rw [hD]

/-- Witness for the amended C1 at concrete agents and a failing gateway. -/
theorem C1_failure_witness :
    failGW (PatientAgent.respondMessages (PatientAgent.init [] []) "hi") =
      Except.error "down" ∧
    (PatientAgent.respond (PatientAgent.init [] []) "hi" failGW =
        ({ PatientAgent.init [] [] with history :=
            (PatientAgent.init [] []).history ++
              [{ role := "user", content := "Doctor: " ++ "hi" }] },
          Except.error "down") ∧
      DoctorAgent.respond (DoctorAgent.init "cc") "hi" 1 3 failGW =
        ({ DoctorAgent.init "cc" with history :=
            (DoctorAgent.init "cc").history ++
              [{ role := "user", content := "Patient: " ++ "hi" }] },
          Except.error "down")) :=
  ⟨rfl,
    C1_failure_appends_incoming_only (PatientAgent.init [] [])
      (DoctorAgent.init "cc") "hi" "hi" 1 3 failGW failGW "down" "down" rfl rfl⟩

/-- Occurrence of the needle as a contiguous substring of the haystack, at
the level of the underlying character lists. -/
def occursIn (needle haystack : String) : Prop :=
  ∃ a b : List Char, haystack.data = a ++ needle.data ++ b

/-- Boolean check for occursIn, scanning every start position. -/
def occursCheck (needle haystack : String) : Bool :=
  (List.range (haystack.data.length + 1)).any fun i =>
    decide ((haystack.data.drop i).take needle.data.length = needle.data)

/-- Correctness of the boolean substring check. -/
theorem occursCheck_iff (needle haystack : String) :
    occursCheck needle haystack = true ↔ occursIn needle haystack := by
  unfold occursCheck occursIn
  rw [List.any_eq_true]
  constructor
  · rintro ⟨i, _, hdec⟩
    rw [decide_eq_true_eq] at hdec
    refine ⟨haystack.data.take i,
      (haystack.data.drop i).drop needle.data.length, ?_⟩
    have h4 := List.take_append_drop needle.data.length (haystack.data.drop i)
    rw [hdec] at h4
    rw [List.append_assoc, h4, List.take_append_drop]
  · rintro ⟨a, b, heq⟩
    refine ⟨a.length, ?_, ?_⟩
    · rw [List.mem_range]
      have hl : haystack.data.length = (a ++ needle.data ++ b).length := by
        rw [heq]
      simp only [List.length_append] at hl
      omega
    · rw [decide_eq_true_eq, heq, List.append_assoc, List.drop_left,
        List.take_left]

instance occursInDecidable (needle haystack : String) :
    Decidable (occursIn needle haystack) :=
  decidable_of_iff _ (occursCheck_iff needle haystack)

/-- An occurrence of a needle with head character c inside an appended list
whose prefix avoids c lies entirely in the suffix. -/
theorem occurs_append_cases (n p m : List Char) (c : Char)
    (hn : n.head? = some c) (hc : c ∉ p)
    (hocc : ∃ a b, p ++ m = a ++ n ++ b) : ∃ a b, m = a ++ n ++ b := by
  obtain ⟨a, b, heq⟩ := hocc
  rw [List.append_assoc] at heq
  by_cases hlen : p.length ≤ a.length
  · refine ⟨a.drop p.length, b, ?_⟩
    have h2 := congrArg (List.drop p.length) heq
    rw [List.drop_left, List.drop_append_of_le_length hlen] at h2
    rw [h2, List.append_assoc]
  · push_neg at hlen
    exfalso
    cases n with
    | nil => simp at hn
    | cons c0 nt =>
      rw [List.head?_cons, Option.some_inj] at hn
      subst hn
      have h3 := congrArg (fun l => l[a.length]?) heq
      simp only at h3
      rw [List.getElem?_append_left hlen,
        List.getElem?_append_right (le_refl a.length)] at h3
      simp only [Nat.sub_self, List.cons_append, List.getElem?_cons_zero] at h3
      rw [List.getElem?_eq_some] at h3
      obtain ⟨hlt, hp⟩ := h3
      exact hc (hp ▸ List.getElem_mem hlt)

/-- String level corollary of the previous lemma. -/
theorem occursIn_append_elim (needle pre post : String) (c : Char)
    (hn : needle.data.head? = some c) (hc : c ∉ pre.data)
    (h : occursIn needle (pre ++ post)) : occursIn needle post := by
  unfold occursIn at h ⊢
  rw [String.data_append] at h
  exact occurs_append_cases needle.data pre.data post.data c hn hc h

/-- First character of the closing context addendum, for every turn pair. -/
theorem closingContext_data_head (turn_number max_turns : Nat) :
    (closingContext turn_number max_turns).data.head? = some '\n' := by
  unfold closingContext
  rw [String.data_append, String.data_append, String.data_append,
    String.data_append]
  rw [show ("\n\n[You are near the end of the interview (turn " : String).data =
    '\n' :: "\n[You are near the end of the interview (turn ".data from rfl]
  simp

/-- C6: a call to DoctorAgent.respond with turn_number at least
max_turns - 2 sends the closing context addendum in the system message of
exactly that call, and a call with smaller turn_number does not; in either
case the agent cached system prompt is unchanged afterwards and the history
gains exactly the incoming patient message and the reply, so, provided the
patient message, the reply and the prior history entries do not already
contain the addendum text, no conversation history entry contains the
addendum text after the call. -/
theorem C6_closing_context_transient (st : DoctorState) (pm : String)
    (turn_number max_turns : Nat) (gw : List Message → Except String String)
    (r : String)
    (hok : gw (DoctorAgent.respondMessages st pm turn_number max_turns) =
      Except.ok r)
    (hpm : ¬ occursIn (closingContext turn_number max_turns) pm)
    (hr : ¬ occursIn (closingContext turn_number max_turns) r)
    (hhist : ∀ msg ∈ st.history,
      ¬ occursIn (closingContext turn_number max_turns) msg.content) :
    (max_turns - 2 ≤ turn_number →
      (DoctorAgent.respondMessages st pm turn_number max_turns).head? =
        some { role := "system",
               content := st.systemPrompt ++
                 closingContext turn_number max_turns }) ∧
    (turn_number < max_turns - 2 →
      (DoctorAgent.respondMessages st pm turn_number max_turns).head? =
        some { role := "system", content := st.systemPrompt }) ∧
    (DoctorAgent.respond st pm turn_number max_turns gw).1.systemPrompt =
      st.systemPrompt ∧
    (DoctorAgent.respond st pm turn_number max_turns gw).1.history =
      st.history ++
        [{ role := "user", content := "Patient: " ++ pm },
          { role := "assistant", content := r }] ∧
    (∀ msg ∈ (DoctorAgent.respond st pm turn_number max_turns gw).1.history,
      ¬ occursIn (closingContext turn_number max_turns) msg.content) := by
  have hresp := DoctorAgent.respond_appends_ok st pm turn_number max_turns gw r hok
  refine ⟨?_, ?_, ?_, ?_, ?_⟩
  · intro h
    have h2 : max_turns ≤ turn_number + 2 := by omega
    simp [DoctorAgent.respondMessages, DoctorAgent.contextFor, h2]
  · intro h
    have h2 : ¬ max_turns ≤ turn_number + 2 := by omega
    simp [DoctorAgent.respondMessages, DoctorAgent.contextFor, h2,
      String.append_empty]
  · rw [hresp]
  · rw [hresp]
  · rw [hresp]
    intro msg hmsg
    simp only [List.mem_append, List.mem_cons, List.not_mem_nil,
      or_false] at hmsg
    rcases hmsg with hh | hu | ha
    · exact hhist msg hh
    · subst hu
      intro hocc
      exact hpm (occursIn_append_elim (closingContext turn_number max_turns)
        "Patient: " pm '\n' (closingContext_data_head turn_number max_turns)
        (by decide) hocc)
    · subst ha
      exact hr

/-- Witness for C6 at a concrete doctor agent, patient message and stub
gateway, on a turn at the closing threshold. -/
theorem C6_closing_context_transient_witness :
    stubGW (DoctorAgent.respondMessages (DoctorAgent.init "cc") "hello" 3 3) =
      Except.ok "ok" ∧
    (¬ occursIn (closingContext 3 3) "hello") ∧
    (¬ occursIn (closingContext 3 3) "ok") ∧
    (3 - 2 ≤ 3 →
      (DoctorAgent.respondMessages (DoctorAgent.init "cc") "hello" 3 3).head? =
        some { role := "system",
               content := (DoctorAgent.init "cc").systemPrompt ++
                 closingContext 3 3 }) ∧
    (∀ msg ∈ (DoctorAgent.respond (DoctorAgent.init "cc") "hello" 3 3
        stubGW).1.history,
      ¬ occursIn (closingContext 3 3) msg.content) := by
  have h := C6_closing_context_transient (DoctorAgent.init "cc") "hello" 3 3
    stubGW "ok" rfl (by decide) (by decide)
    (fun msg hmsg => absurd hmsg (List.not_mem_nil msg))
  exact ⟨rfl, by decide, by decide, h.1, h.2.2.2.2⟩

/-- Length of a sample selection all of whose positions are in range: no
draw is dropped. -/
theorem sampleByIndices_length (v : List String) (sel : List Nat)
    (hidx : ∀ i ∈ sel, i < v.length) :
    (sampleByIndices v sel).length = sel.length := by
  induction sel with
  | nil => rfl
  | cons i rest ih =>
    have hi : i < v.length := hidx i (by simp)
    have ihr := ih (fun j hj => hidx j (List.mem_cons_of_mem i hj))
    simp only [sampleByIndices, List.filterMap_cons,
      List.getElem?_eq_getElem hi] at ihr ⊢
    simp [ihr]

/-- C7: the vocabulary sample drawn at PatientAgent construction has exactly
min 30 (length vocabulary) items, hence at most 30 items; every sampled item
occurs in the vocabulary list assembled from the profile keys for the
patient proficiency tier; and the per tier key sets form a strict superset
chain from tier A through tier B to tier C. -/
theorem C7_vocabulary_sampling (p : Profile) (sel : List Nat)
    (hlen : sel.length =
      min 30 (buildVocabulary p (vocab_keys (PatientAgent.cefr_level p))).length)
    (hidx : ∀ i ∈ sel,
      i < (buildVocabulary p (vocab_keys (PatientAgent.cefr_level p))).length) :
    (sampleByIndices (buildVocabulary p (vocab_keys (PatientAgent.cefr_level p)))
        sel).length =
      min 30 (buildVocabulary p (vocab_keys (PatientAgent.cefr_level p))).length ∧
    (sampleByIndices (buildVocabulary p (vocab_keys (PatientAgent.cefr_level p)))
        sel).length ≤ 30 ∧
    (∀ x ∈ sampleByIndices
        (buildVocabulary p (vocab_keys (PatientAgent.cefr_level p))) sel,
      x ∈ buildVocabulary p (vocab_keys (PatientAgent.cefr_level p))) ∧
    ((∀ k ∈ vocab_keys (PVal.str "A"), k ∈ vocab_keys (PVal.str "B")) ∧
      ∃ k ∈ vocab_keys (PVal.str "B"), k ∉ vocab_keys (PVal.str "A")) ∧
    ((∀ k ∈ vocab_keys (PVal.str "B"), k ∈ vocab_keys (PVal.str "C")) ∧
      ∃ k ∈ vocab_keys (PVal.str "C"), k ∉ vocab_keys (PVal.str "B")) := by
  have h1 := sampleByIndices_length _ sel hidx
  refine ⟨by rw [h1, hlen], by rw [h1, hlen]; omega, ?_, by decide, by decide⟩
  intro x hx
  simp only [sampleByIndices, List.mem_filterMap] at hx
  obtain ⟨i, _, hget⟩ := hx
  rw [List.getElem?_eq_some] at hget
  obtain ⟨hlt, rfl⟩ := hget
  exact List.getElem_mem hlt

/-- Witness for C7 at a concrete profile, with the empty selection matching
the sample size for its vocabulary. -/
theorem C7_vocabulary_sampling_witness :
    ([] : List Nat).length =
      min 30 (buildVocabulary [("age", PVal.intv 54)]
        (vocab_keys (PatientAgent.cefr_level [("age", PVal.intv 54)]))).length ∧
    (∀ i ∈ ([] : List Nat),
      i < (buildVocabulary [("age", PVal.intv 54)]
        (vocab_keys (PatientAgent.cefr_level [("age", PVal.intv 54)]))).length) ∧
    (sampleByIndices
        (buildVocabulary [("age", PVal.intv 54)]
          (vocab_keys (PatientAgent.cefr_level [("age", PVal.intv 54)])))
        []).length ≤ 30 :=
  ⟨by decide, by decide,
    (C7_vocabulary_sampling [("age", PVal.intv 54)] []
      (by decide) (by decide)).2.1⟩

/-- Profile with a single unrecognized persona axis value (personality) and
every other axis left to its valid default. -/
def mixedAxisProfile : Profile := [("personality", PVal.str "grumpy")]

/-- Profile with unrecognized values on all four persona axes. -/
def allUnknownAxisProfile : Profile :=
  [("cefr", PVal.str "Z"), ("personality", PVal.str "grumpy"),
    ("recall_level", PVal.str "zero"), ("dazed_level", PVal.str "dizzy")]

/-- C9: for every profile and independently for each persona axis, an axis
value outside the known set for that axis renders the documented default
block for that axis inside the system instruction, whatever the other axes
hold: an unknown language register yields the tier B language block, an
unknown personality the plain block, an unknown recall level the medium
block and an unknown clarity level the normal block; construction raises
nothing (every embedded function is total, as the Python dict.get lookups
are). -/
theorem C9_unknown_axis_defaults (p : Profile) (sel : List Nat) :
    (PatientAgent.cefr_level p ∉ [PVal.str "A", PVal.str "B", PVal.str "C"] →
      cefrInstruction (PatientAgent.cefr_level p) = cefrBlockB ∧
      ∃ a b, PatientAgent.build_system_prompt p sel =
        a ++ (cefrBlockB ++ b)) ∧
    (PatientAgent.personality p ∉ [PVal.str "plain", PVal.str "distrust"] →
      personalityInstruction (PatientAgent.personality p) =
        personalityBlockPlain ∧
      ∃ a b, PatientAgent.build_system_prompt p sel =
        a ++ (personalityBlockPlain ++ b)) ∧
    (PatientAgent.recall_level p ∉
        [PVal.str "low", PVal.str "medium", PVal.str "high"] →
      recallInstruction (PatientAgent.recall_level p) = recallBlockMedium ∧
      ∃ a b, PatientAgent.build_system_prompt p sel =
        a ++ (recallBlockMedium ++ b)) ∧
    (PatientAgent.dazed_level p ∉ [PVal.str "normal", PVal.str "confused"] →
      dazedInstruction (PatientAgent.dazed_level p) = dazedBlockNormal ∧
      ∃ a b, PatientAgent.build_system_prompt p sel =
        a ++ (dazedBlockNormal ++ b)) := by
  refine ⟨?_, ?_, ?_, ?_⟩
  · intro hc
    simp only [List.mem_cons, List.mem_singleton, not_or] at hc
    have hcE : cefrInstruction (PatientAgent.cefr_level p) = cefrBlockB := by
      unfold cefrInstruction
      rw [if_neg hc.1, if_neg hc.2.1, if_neg hc.2.2.1]
    refine ⟨hcE, patientPromptHead p,
      patientPromptMid1 p sel ++
        (personalityInstruction (PatientAgent.personality p) ++
          (patientPromptMid2 p ++
            (recallInstruction (PatientAgent.recall_level p) ++
              (patientPromptMid3 p ++
                (dazedInstruction (PatientAgent.dazed_level p) ++
                  patientPromptTail))))), ?_⟩
    unfold PatientAgent.build_system_prompt
    rw [hcE]
  · intro hp
    simp only [List.mem_cons, List.mem_singleton, not_or] at hp
    have hpE : personalityInstruction (PatientAgent.personality p) =
        personalityBlockPlain := by
      unfold personalityInstruction
      rw [if_neg hp.1, if_neg hp.2.1]
    refine ⟨hpE,
      patientPromptHead p ++
        (cefrInstruction (PatientAgent.cefr_level p) ++ patientPromptMid1 p sel),
      patientPromptMid2 p ++
        (recallInstruction (PatientAgent.recall_level p) ++
          (patientPromptMid3 p ++
            (dazedInstruction (PatientAgent.dazed_level p) ++
              patientPromptTail))), ?_⟩
    unfold PatientAgent.build_system_prompt
    rw [hpE]
    simp [String.append_assoc]
  · intro hr
    simp only [List.mem_cons, List.mem_singleton, not_or] at hr
    have hrE : recallInstruction (PatientAgent.recall_level p) =
        recallBlockMedium := by
      unfold recallInstruction
      rw [if_neg hr.1, if_neg hr.2.1, if_neg hr.2.2.1]
    refine ⟨hrE,
      patientPromptHead p ++
        (cefrInstruction (PatientAgent.cefr_level p) ++
          (patientPromptMid1 p sel ++
            (personalityInstruction (PatientAgent.personality p) ++
              patientPromptMid2 p))),
      patientPromptMid3 p ++
        (dazedInstruction (PatientAgent.dazed_level p) ++ patientPromptTail),
      ?_⟩
    unfold PatientAgent.build_system_prompt
    rw [hrE]
    simp [String.append_assoc]
  · intro hd
    simp only [List.mem_cons, List.mem_singleton, not_or] at hd
    have hdE : dazedInstruction (PatientAgent.dazed_level p) =
        dazedBlockNormal := by
      unfold dazedInstruction
      rw [if_neg hd.1, if_neg hd.2.1]
    refine ⟨hdE,
      patientPromptHead p ++
        (cefrInstruction (PatientAgent.cefr_level p) ++
          (patientPromptMid1 p sel ++
            (personalityInstruction (PatientAgent.personality p) ++
              (patientPromptMid2 p ++
                (recallInstruction (PatientAgent.recall_level p) ++
                  patientPromptMid3 p))))), patientPromptTail, ?_⟩
    unfold PatientAgent.build_system_prompt
    rw [hdE]
    simp [String.append_assoc]

/-- Witness for C9: a profile with only an unrecognized personality and
otherwise valid axes exercises the single axis implication, and a profile
with four unrecognized axis values discharges every antecedent of the
theorem. -/
theorem C9_unknown_axis_defaults_witness :
    ((PatientAgent.personality mixedAxisProfile ∉
        [PVal.str "plain", PVal.str "distrust"]) ∧
      personalityInstruction (PatientAgent.personality mixedAxisProfile) =
        personalityBlockPlain ∧
      (∃ a b, PatientAgent.build_system_prompt mixedAxisProfile [] =
        a ++ (personalityBlockPlain ++ b))) ∧
    ((PatientAgent.cefr_level allUnknownAxisProfile ∉
        [PVal.str "A", PVal.str "B", PVal.str "C"]) ∧
      (PatientAgent.personality allUnknownAxisProfile ∉
        [PVal.str "plain", PVal.str "distrust"]) ∧
      (PatientAgent.recall_level allUnknownAxisProfile ∉
        [PVal.str "low", PVal.str "medium", PVal.str "high"]) ∧
      (PatientAgent.dazed_level allUnknownAxisProfile ∉
        [PVal.str "normal", PVal.str "confused"]) ∧
      cefrInstruction (PatientAgent.cefr_level allUnknownAxisProfile) =
        cefrBlockB ∧
      (∃ a b, PatientAgent.build_system_prompt allUnknownAxisProfile [] =
        a ++ (cefrBlockB ++ b)) ∧
      recallInstruction (PatientAgent.recall_level allUnknownAxisProfile) =
        recallBlockMedium ∧
      (∃ a b, PatientAgent.build_system_prompt allUnknownAxisProfile [] =
        a ++ (recallBlockMedium ++ b)) ∧
      dazedInstruction (PatientAgent.dazed_level allUnknownAxisProfile) =
        dazedBlockNormal ∧
      (∃ a b, PatientAgent.build_system_prompt allUnknownAxisProfile [] =
        a ++ (dazedBlockNormal ++ b))) := by
  have hmix := (C9_unknown_axis_defaults mixedAxisProfile []).2.1 (by decide)
  have hall := C9_unknown_axis_defaults allUnknownAxisProfile []
  have h1 := hall.1 (by decide)
  have h3 := hall.2.2.1 (by decide)
  have h4 := hall.2.2.2 (by decide)
  exact ⟨⟨by decide, hmix.1, hmix.2⟩,
    by decide, by decide, by decide, by decide,
    h1.1, h1.2, h3.1, h3.2, h4.1, h4.2⟩

/-- C8: DoctorAgent.should_end_interview t m is true exactly when t is at
least m, for all non negative integers t and m, with the stated boundary
cases at (5, 5) and (4, 5). -/
theorem C8_should_end_interview_iff :
    (∀ t m : Nat, DoctorAgent.should_end_interview t m = true ↔ t ≥ m) ∧
    DoctorAgent.should_end_interview 5 5 = true ∧
    DoctorAgent.should_end_interview 4 5 = false := by
  refine ⟨fun t m => ?_, by decide, by decide⟩
  simp [DoctorAgent.should_end_interview]

/-- C10: in LLMClient.generate the configured default temperature and max
tokens are used exactly when the corresponding override is None; an explicit
override equal to 0 is passed through to the backend rather than replaced by
the default; and generate hands the resolved request to the transport, shown
by a transport oracle echoing the temperature it receives. -/
theorem C10_override_resolution :
    (∀ (config : ModelConfig) (messages : List Message) (mt : Option Nat),
      (LLMClient.genRequest config messages none mt).temperature =
        config.temperature) ∧
    (∀ (config : ModelConfig) (messages : List Message) (t : Rat) (mt : Option Nat),
      (LLMClient.genRequest config messages (some t) mt).temperature = t) ∧
    (∀ (config : ModelConfig) (messages : List Message) (ot : Option Rat),
      (LLMClient.genRequest config messages ot none).maxTokens =
        config.maxTokens) ∧
    (∀ (config : ModelConfig) (messages : List Message) (ot : Option Rat) (n : Nat),
      (LLMClient.genRequest config messages ot (some n)).maxTokens = n) ∧
    (∀ (config : ModelConfig) (messages : List Message) (mt : Option Nat),
      (LLMClient.genRequest config messages (some 0) mt).temperature = 0) ∧
    (∀ (config : ModelConfig) (messages : List Message) (ot : Option Rat),
      (LLMClient.genRequest config messages ot (some 0)).maxTokens = 0) ∧
    (∀ (modelId : String) (cfg : ModelConfig) (messages : List Message),
      LLMClient.generate
        [(modelId, { ctype := ClientType.openai, config := cfg })] modelId
        messages (some 0) none
        (fun _ req => Except.ok (some (toString req.temperature)))
        unusedOllamaCall = Except.ok (some (toString (0 : Rat)))) := by
  refine ⟨fun _ _ _ => rfl, fun _ _ _ _ => rfl, fun _ _ _ => rfl,
    fun _ _ _ _ => rfl, fun _ _ _ => rfl, fun _ _ _ => rfl,
    fun modelId cfg messages => ?_⟩
  simp [LLMClient.generate, lookupClient, LLMClient.genRequest]

/-- C3 counterexample: a backend whose generate call succeeds and returns a
None response raises nothing, yet test_connection returns false; the claim
predicts success (true) whenever the call does not fail. -/
theorem C3_counterexample :
    LLMClient.generate [("m", demoClient)] "m"
      [{ role := "user", content := "Say hi" }] none (some 50)
      noneContentCall unusedOllamaCall = Except.ok none ∧
    LLMClient.test_connection [("m", demoClient)] "m"
      noneContentCall unusedOllamaCall = false := by
  exact ⟨rfl, rfl⟩

/-- C3 amended: test_connection returns true exactly when the underlying
generate call returns, without raising, a response that is not None; an
empty string response still counts as success, a None response yields false
even though the call itself did not fail, and a raised call yields false. -/
theorem C3_test_connection_iff :
    ∀ (clients : List (String × ClientInfo)) (modelId : String)
      (openaiCall : Nat → Request → Except String (Option String))
      (ollamaCall : Nat → Request → Except String OllamaPayload),
      LLMClient.test_connection clients modelId openaiCall ollamaCall = true ↔
        ∃ s : String,
          LLMClient.generate clients modelId
            [{ role := "user", content := "Say hi" }] none (some 50)
            openaiCall ollamaCall = Except.ok (some s) := by
  intro clients modelId oc olc
  unfold LLMClient.test_connection
  cases h : LLMClient.generate clients modelId
      [{ role := "user", content := "Say hi" }] none (some 50) oc olc with
  | error e => simp
  | ok response => cases response <;> simp

/-- C4: for every registered backend, a transport level failure makes
generate fail with a generation error whose message carries the backend
identifier and the descriptive cause, and generate consults the transport at
attempt 0 only, so there is no internal retry: two transport oracle pairs
that agree on attempt 0 give identical results. -/
theorem C4_generate_error_and_no_retry
    (clients : List (String × ClientInfo)) (modelId : String) (ci : ClientInfo)
    (messages : List Message) (temperature : Option Rat) (maxTokens : Option Nat)
    (openaiCall openaiCall2 : Nat → Request → Except String (Option String))
    (ollamaCall ollamaCall2 : Nat → Request → Except String OllamaPayload)
    (hlook : lookupClient clients modelId = some ci)
    (hoc : ∀ req, openaiCall 0 req = openaiCall2 0 req)
    (holc : ∀ req, ollamaCall 0 req = ollamaCall2 0 req) :
    (∀ cause : String,
      ((ci.ctype = ClientType.openai ∨ ci.ctype = ClientType.openaiCompatible) →
        openaiCall 0 (LLMClient.genRequest ci.config messages temperature maxTokens) =
          Except.error cause →
        LLMClient.generate clients modelId messages temperature maxTokens
          openaiCall ollamaCall =
          Except.error ("Error generating from " ++ modelId ++ ": " ++ cause)) ∧
      (ci.ctype = ClientType.ollama →
        ollamaCall 0 (LLMClient.genRequest ci.config messages temperature maxTokens) =
          Except.error cause →
        LLMClient.generate clients modelId messages temperature maxTokens
          openaiCall ollamaCall =
          Except.error ("Error generating from " ++ modelId ++ ": " ++ cause))) ∧
    LLMClient.generate clients modelId messages temperature maxTokens
      openaiCall ollamaCall =
      LLMClient.generate clients modelId messages temperature maxTokens
        openaiCall2 ollamaCall2 := by
  constructor
  · intro cause
    constructor
    · rintro (hty | hty) herr <;>
        simp [LLMClient.generate, hlook, hty, herr]
    · intro hty herr
      simp [LLMClient.generate, hlook, hty, herr]
  · unfold LLMClient.generate
    rw [hlook]
    cases hty : ci.ctype <;> simp [hoc, holc]

/-- Witness for C4 at a concrete registry, backend and failing transport. -/
theorem C4_witness :
    lookupClient [("m", demoClient)] "m" = some demoClient ∧
    LLMClient.generate [("m", demoClient)] "m" [] none none
      failingOpenaiCall unusedOllamaCall =
      Except.error ("Error generating from " ++ "m" ++ ": " ++ "boom") :=
  ⟨rfl,
    ((C4_generate_error_and_no_retry [("m", demoClient)] "m" demoClient [] none none
        failingOpenaiCall failingOpenaiCall unusedOllamaCall unusedOllamaCall
        rfl (fun _ => rfl) (fun _ => rfl)).1 "boom").1 (Or.inl rfl) rfl⟩
